import Mathlib

/-!
# FIL-x402 facilitator — shallow embedding and verification

This file embeds, in Lean 4, the core of the FIL-x402 payment facilitator:
the in-memory risk service (`RiskService` in `facilitator/src/services/risk.ts`),
the verification pipeline (`VerifyService.verify`), the settlement engine
(`SettleService` in `facilitator/src/services/settle.ts`), the F3 per-tipset
confirmation evaluator (`F3Service.evaluateConfirmationForTipset` in
`facilitator/src/services/f3.ts`), and the escrow contract's `_collect`
(`DeferredPaymentEscrow.sol`).  Asynchronous RPC results (chain balance,
nonce lookups, transaction submission, F3 instance mapping) are passed in as
explicit oracle values; wall-clock reads (`Date.now()`, the UTC date key)
are explicit parameters.  Token amounts are modelled as `Nat` (the source
uses arbitrary-precision `bigint` on non-negative values; the one clamped
subtraction is mirrored literally).
-/

namespace FILx402

/-! ## Lower-casing of wallet addresses

The TypeScript code normalises wallet keys with `String.prototype.toLowerCase`.
We embed it as a character-wise map with `Char.toLower` (addresses are ASCII
hex strings, on which the two functions agree). -/

/-- Embedding of JS `s.toLowerCase()`: character-wise ASCII lower-casing. -/
def lowerStr (s : String) : String :=
  ⟨s.data.map Char.toLower⟩

theorem char_toNat_ofNat {n : Nat} (h : n.isValidChar) : (Char.ofNat n).toNat = n := by
  rw [Char.ofNat, dif_pos h]
  rfl

theorem char_toLower_toNat_not_upper (c : Char) :
    ¬(Char.toLower c).toNat ≥ 65 ∨ ¬(Char.toLower c).toNat ≤ 90 := by
  by_cases h : c.toNat ≥ 65 ∧ c.toNat ≤ 90
  · have hv : (c.toNat + 32).isValidChar := Or.inl (by omega)
    have ht : (Char.toLower c).toNat = c.toNat + 32 := by
      show (if c.toNat ≥ 65 ∧ c.toNat ≤ 90 then Char.ofNat (c.toNat + 32) else c).toNat
        = c.toNat + 32
      rw [if_pos h, char_toNat_ofNat hv]
    right
    omega
  · have ht : Char.toLower c = c := by
      show (if c.toNat ≥ 65 ∧ c.toNat ≤ 90 then Char.ofNat (c.toNat + 32) else c) = c
      rw [if_neg h]
    rw [ht]
    omega

theorem char_toLower_idem (c : Char) :
    Char.toLower (Char.toLower c) = Char.toLower c := by
  have h := char_toLower_toNat_not_upper c
  show (if (Char.toLower c).toNat ≥ 65 ∧ (Char.toLower c).toNat ≤ 90
        then Char.ofNat ((Char.toLower c).toNat + 32) else Char.toLower c) = Char.toLower c
  rw [if_neg (by omega)]

theorem lowerStr_idem (s : String) : lowerStr (lowerStr s) = lowerStr s := by
  unfold lowerStr
  apply congrArg String.mk
  rw [List.map_map]
  exact List.map_congr_left (fun c _ => char_toLower_idem c)

/-! ## Data model (`facilitator/src/types/payment.ts`, `types/f3.ts`) -/

/-- EIP-3009 payment authorization (`PaymentPayload`).  `value` is the numeric
value of the decimal string the service converts with `BigInt(payment.value)`. -/
structure PaymentPayload where
  token : String
  from_ : String
  to_ : String
  value : Nat
  validAfter : Nat
  validBefore : Nat
  nonce : String
  signature : String
  deriving DecidableEq, Repr

/-- Counter-party requirements (`PaymentRequirements`). -/
structure PaymentRequirements where
  tokenAddress : String
  payTo : String
  maxAmountRequired : Nat
  deriving DecidableEq, Repr

/-- Settlement record status (`PendingSettlement.status`). -/
inductive SettlementStatus where
  | pending
  | submitted
  | retry
  | confirmed
  | failed
  deriving DecidableEq, Repr

/-- F3 consensus phases (`F3Phase` enum, numeric values 0–4). -/
inductive F3Phase where
  | QUALITY
  | CONVERGE
  | PREPARE
  | COMMIT
  | DECIDE
  deriving DecidableEq, Repr

/-- Numeric value of an `F3Phase` (the TS enum value used in `>=` comparisons). -/
def F3Phase.toNat : F3Phase → Nat
  | .QUALITY => 0
  | .CONVERGE => 1
  | .PREPARE => 2
  | .COMMIT => 3
  | .DECIDE => 4

/-- Confirmation levels (`ConfirmationLevel` enum). -/
inductive ConfirmationLevel where
  | L0
  | L1
  | L2
  | L3
  | LB
  deriving DecidableEq, Repr

/-- Settlement record (`PendingSettlement`). -/
structure PendingSettlement where
  paymentId : String
  payment : PaymentPayload
  requirements : PaymentRequirements
  status : SettlementStatus
  attempts : Nat
  maxAttempts : Nat
  createdAt : Nat
  updatedAt : Nat
  transactionCid : Option String := none
  error : Option String := none
  tipsetHeight : Option Nat := none
  confirmationLevel : Option ConfirmationLevel := none
  f3Instance : Option Nat := none
  f3Round : Option Nat := none
  f3Phase : Option F3Phase := none
  confirmedAt : Option Nat := none
  deriving DecidableEq, Repr

/-- Wallet risk tiers (`WalletTier`). -/
inductive WalletTier where
  | UNKNOWN
  | HISTORY_7D
  | HISTORY_30D
  | VERIFIED
  deriving DecidableEq, Repr

/-- `TIER_DAILY_LIMITS_USD` table. -/
def tierDailyLimitUsd : WalletTier → Nat
  | .UNKNOWN => 5
  | .HISTORY_7D => 50
  | .HISTORY_30D => 500
  | .VERIFIED => 5000

/-- The slice of `Config` consumed by the embedded services. -/
structure Config where
  tokenDecimals : Nat
  riskMaxPerTransaction : Nat
  riskMaxPendingPerWallet : Nat
  riskDailyLimitPerWallet : Nat
  settlementMaxAttempts : Nat
  fcrEnabled : Bool
  deriving DecidableEq, Repr

/-- `RiskLimits` in token units, as computed in the `RiskService` constructor
(`BigInt(usd) * 10^decimals`). -/
structure RiskLimits where
  maxPerTransaction : Nat
  maxPendingPerWallet : Nat
  dailyLimitPerWallet : Nat
  deriving DecidableEq, Repr

/-- The constructor's conversion of USD limits into token units. -/
def computeLimits (cfg : Config) : RiskLimits :=
  { maxPerTransaction := cfg.riskMaxPerTransaction * 10 ^ cfg.tokenDecimals
    maxPendingPerWallet := cfg.riskMaxPendingPerWallet * 10 ^ cfg.tokenDecimals
    dailyLimitPerWallet := cfg.riskDailyLimitPerWallet * 10 ^ cfg.tokenDecimals }

/-- `RiskCheckResult`. -/
structure RiskCheckResult where
  allowed : Bool
  reason : Option String := none
  riskScore : Nat
  currentPending : Nat
  dailyUsed : Nat
  walletTier : Option WalletTier := none
  deriving DecidableEq, Repr

/-! ## Risk service state (`RiskService`, first block of `risk.ts`)

The TS maps become total functions (with the `|| 0n` default) or association
lists; the settlement `Map` keeps first-binding order with in-place update. -/

abbrev SettlementMap := List (String × PendingSettlement)

/-- `Map.get` on the settlement map. -/
def mapLookup : SettlementMap → String → Option PendingSettlement
  | [], _ => none
  | e :: rest, k => if e.1 == k then some e.2 else mapLookup rest k

/-- `Map.set` on the settlement map: replace in place, or append. -/
def mapSet : SettlementMap → String → PendingSettlement → SettlementMap
  | [], k, v => [(k, v)]
  | e :: rest, k, v => if e.1 == k then (k, v) :: rest else e :: mapSet rest k v

/-- The in-memory state of `RiskService`. -/
structure RiskState where
  pendingByWallet : String → Nat
  dailyUsageByWallet : String → Option (Nat × String)
  pendingSettlements : SettlementMap
  walletTiers : String → Option WalletTier
  walletFirstSeen : String → Option Nat

/-- A freshly constructed `RiskService` (all maps empty). -/
def initialRiskState : RiskState :=
  { pendingByWallet := fun _ => 0
    dailyUsageByWallet := fun _ => none
    pendingSettlements := []
    walletTiers := fun _ => none
    walletFirstSeen := fun _ => none }

/-- `RiskService.getPendingAmount`. -/
def getPendingAmount (st : RiskState) (wallet : String) : Nat :=
  st.pendingByWallet (lowerStr wallet)

/-- `RiskService.getDailyUsage`; `dateKey` is the current UTC date string. -/
def getDailyUsage (st : RiskState) (wallet : String) (dateKey : String) : Nat :=
  match st.dailyUsageByWallet (lowerStr wallet) with
  | none => 0
  | some u => if u.2 ≠ dateKey then 0 else u.1

/-- `RiskService.getWalletTier` (age thresholds in milliseconds). -/
def getWalletTier (st : RiskState) (wallet : String) (nowMs : Nat) : WalletTier :=
  let key := lowerStr wallet
  match st.walletTiers key with
  | some t => t
  | none =>
    match st.walletFirstSeen key with
    | none => .UNKNOWN
    | some firstSeen =>
      if nowMs - firstSeen ≥ 30 * 86400000 then .HISTORY_30D
      else if nowMs - firstSeen ≥ 7 * 86400000 then .HISTORY_7D
      else .UNKNOWN

/-- `RiskService.getDailyLimitForWallet` (tier limit in token units). -/
def getDailyLimitForWallet (cfg : Config) (st : RiskState) (wallet : String)
    (nowMs : Nat) : Nat :=
  tierDailyLimitUsd (getWalletTier st wallet nowMs) * 10 ^ cfg.tokenDecimals

/-- `RiskService.trackWalletFirstSeen`. -/
def trackWalletFirstSeen (st : RiskState) (wallet : String) (nowMs : Nat) : RiskState :=
  let key := lowerStr wallet
  match st.walletFirstSeen key with
  | some _ => st
  | none =>
    { st with walletFirstSeen := fun k => if k = key then some nowMs else st.walletFirstSeen k }

/-- `RiskService.checkPayment` — the three ordered gates.  Also returns the
post-state because the method records the wallet's first-seen timestamp. -/
def checkPayment (cfg : Config) (st : RiskState) (p : PaymentPayload)
    (nowMs : Nat) (dateKey : String) : RiskCheckResult × RiskState :=
  let limits := computeLimits cfg
  let wallet := lowerStr p.from_
  let amount := p.value
  let tier := getWalletTier st wallet nowMs
  let st1 := trackWalletFirstSeen st wallet nowMs
  if amount > limits.maxPerTransaction then
    ({ allowed := false, reason := some "Amount exceeds max per transaction"
       riskScore := 80, currentPending := getPendingAmount st1 wallet
       dailyUsed := getDailyUsage st1 wallet dateKey, walletTier := some tier }, st1)
  else
    let currentPending := getPendingAmount st1 wallet
    if currentPending + amount > limits.maxPendingPerWallet then
      ({ allowed := false, reason := some "Pending would exceed max pending"
         riskScore := 70, currentPending := currentPending
         dailyUsed := getDailyUsage st1 wallet dateKey, walletTier := some tier }, st1)
    else
      let dailyUsed := getDailyUsage st1 wallet dateKey
      let dailyLimit := getDailyLimitForWallet cfg st1 wallet nowMs
      if dailyUsed + amount > dailyLimit then
        ({ allowed := false, reason := some "Daily usage would exceed tier limit"
           riskScore := 60, currentPending := currentPending
           dailyUsed := dailyUsed, walletTier := some tier }, st1)
      else
        ({ allowed := true, riskScore := 0, currentPending := currentPending
           dailyUsed := dailyUsed, walletTier := some tier }, st1)

/-- `RiskService.reserveCredit`. -/
def reserveCredit (cfg : Config) (st : RiskState) (paymentId : String)
    (p : PaymentPayload) (req : PaymentRequirements) (nowMs : Nat) : RiskState :=
  let wallet := lowerStr p.from_
  let amount := p.value
  let currentPending := getPendingAmount st wallet
  { st with
    pendingByWallet := fun k => if k = wallet then currentPending + amount
      else st.pendingByWallet k
    pendingSettlements := mapSet st.pendingSettlements paymentId
      { paymentId := paymentId, payment := p, requirements := req
        status := .pending, attempts := 0, maxAttempts := cfg.settlementMaxAttempts
        createdAt := nowMs, updatedAt := nowMs } }

/-- `RiskService.releaseCredit`. -/
def releaseCredit (st : RiskState) (paymentId : String) (success : Bool)
    (nowMs : Nat) (dateKey : String) : RiskState :=
  match mapLookup st.pendingSettlements paymentId with
  | none => st
  | some settlement =>
    let wallet := lowerStr settlement.payment.from_
    let amount := settlement.payment.value
    let currentPending := getPendingAmount st wallet
    let newPending := if currentPending > amount then currentPending - amount else 0
    let st1 := { st with
      pendingByWallet := fun k => if k = wallet then newPending else st.pendingByWallet k }
    let st2 := if success then
        { st1 with dailyUsageByWallet := fun k =>
            if k = wallet then some (getDailyUsage st1 wallet dateKey + amount, dateKey)
            else st1.dailyUsageByWallet k }
      else st1
    let newStatus : SettlementStatus := if success then .confirmed else .failed
    let newRecord := { settlement with status := newStatus, updatedAt := nowMs }
    { st2 with pendingSettlements := mapSet st2.pendingSettlements paymentId newRecord }

/-- `RiskService.getPendingSettlement`. -/
def getPendingSettlement (st : RiskState) (paymentId : String) : Option PendingSettlement :=
  mapLookup st.pendingSettlements paymentId

/-- The shape of a `Partial<PendingSettlement>` patch as used by the engine. -/
structure SettlementPatch where
  payment : Option PaymentPayload := none
  status : Option SettlementStatus := none
  transactionCid : Option String := none
  attempts : Option Nat := none
  error : Option String := none
  tipsetHeight : Option Nat := none
  confirmationLevel : Option ConfirmationLevel := none
  f3Instance : Option Nat := none
  f3Round : Option Nat := none
  f3Phase : Option F3Phase := none
  confirmedAt : Option Nat := none
  deriving DecidableEq, Repr

/-- `Object.assign(settlement, updates, { updatedAt: Date.now() })`. -/
def applyPatch (s : PendingSettlement) (u : SettlementPatch) (nowMs : Nat) : PendingSettlement :=
  { s with
    payment := u.payment.getD s.payment
    status := u.status.getD s.status
    transactionCid := (u.transactionCid.map some).getD s.transactionCid
    attempts := u.attempts.getD s.attempts
    error := (u.error.map some).getD s.error
    tipsetHeight := (u.tipsetHeight.map some).getD s.tipsetHeight
    confirmationLevel := (u.confirmationLevel.map some).getD s.confirmationLevel
    f3Instance := (u.f3Instance.map some).getD s.f3Instance
    f3Round := (u.f3Round.map some).getD s.f3Round
    f3Phase := (u.f3Phase.map some).getD s.f3Phase
    confirmedAt := (u.confirmedAt.map some).getD s.confirmedAt
    updatedAt := nowMs }

/-- `RiskService.updatePendingSettlement`. -/
def updatePendingSettlement (st : RiskState) (paymentId : String)
    (u : SettlementPatch) (nowMs : Nat) : RiskState :=
  match mapLookup st.pendingSettlements paymentId with
  | none => st
  | some settlement =>
    let patched := applyPatch settlement u nowMs
    { st with pendingSettlements := mapSet st.pendingSettlements paymentId patched }

/-- Non-terminal settlement statuses (`'pending' || 'submitted' || 'retry'`). -/
def nonTerminal (s : SettlementStatus) : Bool :=
  s == .pending || s == .submitted || s == .retry

/-- `RiskService.getAllPendingSettlements`. -/
def getAllPendingSettlements (st : RiskState) : List PendingSettlement :=
  (st.pendingSettlements.map (·.2)).filter (fun s => nonTerminal s.status)

/-! ## Signature service helpers (`services/signature.ts`) -/

/-- `SignatureService.isWithinValidityWindow` (`now` in unix seconds). -/
def isWithinValidityWindow (p : PaymentPayload) (now : Nat) : Bool :=
  now ≥ p.validAfter && now < p.validBefore

/-- `SignatureService.isExpiringSoon`: `payment.validBefore - now < thresholdSeconds`
(JS number subtraction, hence over `Int`). -/
def isExpiringSoon (p : PaymentPayload) (thresholdSeconds : Nat) (now : Nat) : Bool :=
  (p.validBefore : Int) - (now : Int) < (thresholdSeconds : Int)

/-! ## Verification pipeline (`VerifyService.verify`)

Chain lookups are oracle parameters: `sigValid` is the outcome of the
ECDSA check `isValidPaymentSignature`, `nonceUsed` and `balance` are the
RPC results, with `.error` marking a thrown transport error. -/

/-- `VerifyResponse`. -/
structure VerifyResponse where
  valid : Bool
  riskScore : Nat
  reason : Option String := none
  walletBalance : Option Nat := none
  pendingAmount : Option Nat := none
  deriving DecidableEq, Repr

/-- `VerifyService.verify` — the ordered gates, short-circuiting on the first
failure.  Returns the post-state because the risk gate records first-seen. -/
def verify (cfg : Config) (st : RiskState) (sigValid : Bool)
    (nonceUsed : Except Unit Bool) (balance : Except Unit Nat)
    (now nowMs : Nat) (dateKey : String)
    (p : PaymentPayload) (req : PaymentRequirements) : VerifyResponse × RiskState :=
  if lowerStr p.token ≠ lowerStr req.tokenAddress then
    ({ valid := false, riskScore := 100, reason := some "token_mismatch" }, st)
  else if lowerStr p.to_ ≠ lowerStr req.payTo then
    ({ valid := false, riskScore := 100, reason := some "recipient_mismatch" }, st)
  else if p.value < req.maxAmountRequired then
    ({ valid := false, riskScore := 100, reason := some "insufficient_amount" }, st)
  else if !sigValid then
    ({ valid := false, riskScore := 100, reason := some "invalid_signature" }, st)
  else if !(isWithinValidityWindow p now) then
    ({ valid := false, riskScore := 100, reason := some "expired_or_not_yet_valid" }, st)
  else if isExpiringSoon p 120 now then
    ({ valid := false, riskScore := 80, reason := some "expires_too_soon" }, st)
  else
    match nonceUsed with
    | .ok true =>
      ({ valid := false, riskScore := 100, reason := some "nonce_already_used" }, st)
    | _ =>
      match balance with
      | .error _ =>
        ({ valid := false, riskScore := 90, reason := some "balance_check_failed" }, st)
      | .ok bal =>
        if bal < p.value then
          ({ valid := false, riskScore := 80, reason := some "insufficient_balance"
             walletBalance := some bal }, st)
        else
          let rc := checkPayment cfg st p nowMs dateKey
          if rc.1.allowed = false then
            ({ valid := false, riskScore := rc.1.riskScore, reason := rc.1.reason
               pendingAmount := some rc.1.currentPending }, rc.2)
          else
            ({ valid := true, riskScore := 0, walletBalance := some bal
               pendingAmount := some rc.1.currentPending }, rc.2)

/-- Modelled from the spec: the gate order of §4.4 stated as a first-failing-
gate function, used to compare against the implementation's `verify`. -/
def firstFailingGateReason (cfg : Config) (st : RiskState) (sigValid : Bool)
    (nonceUsed : Except Unit Bool) (balance : Except Unit Nat)
    (now nowMs : Nat) (dateKey : String)
    (p : PaymentPayload) (req : PaymentRequirements) : Option String :=
  if lowerStr p.token ≠ lowerStr req.tokenAddress then some "token_mismatch"
  else if lowerStr p.to_ ≠ lowerStr req.payTo then some "recipient_mismatch"
  else if p.value < req.maxAmountRequired then some "insufficient_amount"
  else if !sigValid then some "invalid_signature"
  else if !(isWithinValidityWindow p now) then some "expired_or_not_yet_valid"
  else if isExpiringSoon p 120 now then some "expires_too_soon"
  else
    match nonceUsed with
    | .ok true => some "nonce_already_used"
    | _ =>
      match balance with
      | .error _ => some "balance_check_failed"
      | .ok bal =>
        if bal < p.value then some "insufficient_balance"
        else if (checkPayment cfg st p nowMs dateKey).1.allowed = false then
          (checkPayment cfg st p nowMs dateKey).1.reason
        else none

/-! ## F3 per-tipset confirmation evaluator (`services/f3.ts`) -/

/-- `F3InstanceState` (the monitor's current view). -/
structure F3InstanceState where
  instanceId : Nat
  round : Nat
  phase : F3Phase
  phaseStartTime : Nat
  roundBumps : Nat
  deriving DecidableEq, Repr

/-- `ConfirmationStatus`. -/
structure ConfirmationStatus where
  level : ConfirmationLevel
  instanceId : Option Nat := none
  round : Option Nat := none
  phase : Option F3Phase := none
  certificateId : Option Nat := none
  timestamp : Nat
  deriving DecidableEq, Repr

/-- Status of the instance mapping returned by `getInstanceForTipset`. -/
inductive MappingStatus where
  | pending
  | active
  | finalized
  deriving DecidableEq, Repr

/-- Result of `getInstanceForTipset` (an RPC-driven lookup, passed as oracle). -/
structure InstanceMapping where
  instanceId : Nat
  status : MappingStatus
  deriving DecidableEq, Repr

/-- `SAFE_PREPARE_BUFFER_MS` (5 s buffer for the PREPARE heuristic). -/
def SAFE_PREPARE_BUFFER_MS : Nat := 5000

/-- `F3Service.evaluateActiveInstance`. -/
def evaluateActiveInstance (nowMs : Nat) (s : F3InstanceState) : ConfirmationStatus :=
  if s.phase.toNat ≥ F3Phase.DECIDE.toNat then
    { level := .L3, instanceId := some s.instanceId, round := some s.round
      phase := some s.phase, timestamp := nowMs }
  else if s.phase = .COMMIT then
    { level := .L2, instanceId := some s.instanceId, round := some s.round
      phase := some s.phase, timestamp := nowMs }
  else if s.phase = .PREPARE ∧ s.round = 0 ∧ nowMs - s.phaseStartTime ≥ SAFE_PREPARE_BUFFER_MS then
    { level := .L2, instanceId := some s.instanceId, round := some s.round
      phase := some s.phase, timestamp := nowMs }
  else
    { level := .L1, instanceId := some s.instanceId, round := some s.round
      phase := some s.phase, timestamp := nowMs }

/-- `F3Service.evaluateConfirmationForTipset`, with the monitor's current
state and the tipset's instance mapping made explicit. -/
def evaluateConfirmationForTipset (currentState : Option F3InstanceState)
    (mapping : InstanceMapping) (nowMs : Nat) : ConfirmationStatus :=
  match currentState with
  | none => { level := .L0, timestamp := nowMs }
  | some cs =>
    if mapping.status = .finalized then
      { level := .L3, instanceId := some mapping.instanceId
        certificateId := some mapping.instanceId, timestamp := nowMs }
    else if mapping.status = .active ∧ cs.instanceId = mapping.instanceId then
      evaluateActiveInstance nowMs cs
    else
      { level := .L1, instanceId := some mapping.instanceId, timestamp := nowMs }

/-! ## Settlement engine (`SettleService`, `services/settle.ts`)

`generatePaymentId` is `keccak256(payment.signature)`; the hash itself is an
arbitrary function parameter `keccak`.  On-chain and RPC effects (bond
capacity and commit, transaction submission, block number, receipts) are
oracle values with `.error` marking a thrown/rejected call. -/

/-- The FCR block attached to a successful `SettleResponse`. -/
structure FcrData where
  level : ConfirmationLevel
  instanceId : Option Nat := none
  round : Option Nat := none
  phase : Option F3Phase := none
  deriving DecidableEq, Repr

/-- `SettleResponse`. -/
structure SettleResponse where
  success : Bool
  paymentId : String
  transactionCid : Option String := none
  error : Option String := none
  fcr : Option FcrData := none
  deriving DecidableEq, Repr

/-- The external effects consumed by one `settle` call. -/
structure SettleOracle where
  sigValid : Bool
  nonceUsed : Except Unit Bool
  balance : Except Unit Nat
  nowSec : Nat
  bondPresent : Bool
  bondCapacity : Except Unit Bool
  bondCommit : Except Unit Unit
  submitResult : Except String String
  blockNumber : Except Unit Nat
  f3Present : Bool
  fcrEval : ConfirmationStatus

/-- `SettleService.settle`. -/
def settle (keccak : String → String) (cfg : Config) (o : SettleOracle)
    (nowMs : Nat) (dateKey : String) (st : RiskState)
    (p : PaymentPayload) (req : PaymentRequirements) : SettleResponse × RiskState :=
  let paymentId := keccak p.signature
  match getPendingSettlement st paymentId with
  | some existing =>
    ({ success := false, paymentId := paymentId
       error := some "payment_already_submitted"
       transactionCid := existing.transactionCid }, st)
  | none =>
    let vres := verify cfg st o.sigValid o.nonceUsed o.balance o.nowSec nowMs dateKey p req
    if vres.1.valid = false then
      ({ success := false, paymentId := paymentId, error := vres.1.reason }, vres.2)
    else
      let st2 := reserveCredit cfg vres.2 paymentId p req nowMs
      let bondOutcome : Option SettleResponse :=
        if o.bondPresent then
          match o.bondCapacity with
          | .error _ => some { success := false, paymentId := paymentId
                               error := some "bond_commit_failed" }
          | .ok false => some { success := false, paymentId := paymentId
                                error := some "insufficient_bond_capacity" }
          | .ok true =>
            match o.bondCommit with
            | .error _ => some { success := false, paymentId := paymentId
                                 error := some "bond_commit_failed" }
            | .ok _ => none
        else none
      match bondOutcome with
      | some resp => (resp, st2)
      | none =>
        match o.submitResult with
        | .ok txCid =>
          let tipsetHeight : Option Nat :=
            match o.blockNumber with
            | .ok h => some h
            | .error _ => none
          let fcrData : Option FcrData :=
            if o.f3Present ∧ cfg.fcrEnabled = true ∧ tipsetHeight ≠ none then
              some { level := o.fcrEval.level, instanceId := o.fcrEval.instanceId
                     round := o.fcrEval.round, phase := o.fcrEval.phase }
            else none
          let st3 := updatePendingSettlement st2 paymentId
            { transactionCid := some txCid, status := some .submitted, attempts := some 1
              tipsetHeight := tipsetHeight, confirmationLevel := fcrData.map (·.level)
              f3Instance := (fcrData.map (·.instanceId)).getD none } nowMs
          ({ success := true, paymentId := paymentId, transactionCid := some txCid
             fcr := fcrData }, st3)
        | .error e =>
          let st3 := updatePendingSettlement st2 paymentId
            { status := some .retry, attempts := some 1, error := some e } nowMs
          ({ success := false, paymentId := paymentId
             error := some "submission_failed" }, st3)

/-- `SettleService.updateSettlementFCR` — one worker-tick FCR update for a
settlement record; `evalResult` is the (oracle) outcome of
`f3.evaluateConfirmationForTipset(settlement.tipsetHeight)`. -/
def updateSettlementFCR (cfg : Config) (f3Present : Bool)
    (evalResult : Except Unit ConfirmationStatus) (nowMs : Nat)
    (st : RiskState) (settlement : PendingSettlement) : RiskState :=
  if !f3Present || !cfg.fcrEnabled then st
  else if settlement.tipsetHeight = none ∨ settlement.tipsetHeight = some 0 then st
  else if settlement.confirmationLevel = some .L3 then st
  else
    match evalResult with
    | .error _ => st
    | .ok status =>
      if some status.level ≠ settlement.confirmationLevel then
        let patch : SettlementPatch :=
          { confirmationLevel := some status.level
            f3Instance := status.instanceId
            f3Round := status.round
            f3Phase := status.phase
            confirmedAt := if status.level = .L3 then some nowMs else none }
        updatePendingSettlement st settlement.paymentId patch nowMs
      else st

/-- An on-chain transaction receipt (`status` 1 = success, 0 = reverted). -/
structure Receipt where
  status : Nat
  deriving DecidableEq, Repr

/-- The external effects consumed by one `processSettlement` call. -/
structure WorkerOracle where
  receipt : Except Unit (Option Receipt)
  bondPresent : Bool
  bondRelease : Except Unit Unit
  submitResult : Except String String

/-- `SettleService.processSettlement` — one worker pass over one settlement. -/
def processSettlement (o : WorkerOracle) (nowSec nowMs : Nat) (dateKey : String)
    (st : RiskState) (s : PendingSettlement) : RiskState :=
  if s.status = .submitted ∧ s.transactionCid ≠ none then
    match o.receipt with
    | .ok (some receipt) =>
      if receipt.status = 1 then
        releaseCredit st s.paymentId true nowMs dateKey
      else if receipt.status = 0 then
        updatePendingSettlement st s.paymentId
          { status := some .retry, error := some "transaction_reverted" } nowMs
      else st
    | .ok none => st
    | .error _ => st
  else if s.status = .retry then
    if s.attempts ≥ s.maxAttempts then
      releaseCredit st s.paymentId false nowMs dateKey
    else if nowSec ≥ s.payment.validBefore then
      releaseCredit st s.paymentId false nowMs dateKey
    else
      match o.submitResult with
      | .ok txCid =>
        updatePendingSettlement st s.paymentId
          { transactionCid := some txCid, status := some .submitted
            attempts := some (s.attempts + 1) } nowMs
      | .error e =>
        updatePendingSettlement st s.paymentId
          { attempts := some (s.attempts + 1), error := some e } nowMs
  else st

/-! ## Deferred payment escrow (`DeferredPaymentEscrow.sol`)

`_collect` is embedded as a pure transition on the contract state.  ECDSA
recovery over the EIP-712 digest is an oracle function `recover` (`none`
models a reverting `ECDSA.recover`).  All amounts are `uint256` values whose
subtractions are guarded by `require`s, so `Nat` arithmetic is exact. -/

/-- `IDeferredPaymentEscrow.Voucher`. -/
structure Voucher where
  id : String
  buyer : String
  seller : String
  valueAggregate : Nat
  asset : String
  timestamp : Nat
  nonce : Nat
  escrow : String
  chainId : Nat
  deriving DecidableEq, Repr

/-- `IDeferredPaymentEscrow.EscrowAccount`. -/
structure EscrowAccount where
  balance : Nat
  thawingAmount : Nat
  thawEndTime : Nat
  deriving DecidableEq, Repr

/-- The contract state of `DeferredPaymentEscrow`, plus a log of performed
`token.safeTransfer(seller, delta)` calls. -/
structure EscrowState where
  tokenAddr : String
  selfAddr : String
  chainId : Nat
  accounts : String → EscrowAccount
  settledNonce : String → Nat
  collectedValue : String → Nat
  transfers : List (String × Nat)

/-- `DeferredPaymentEscrow._collect` — reverts become `Except.error` with the
`require` message. -/
def collect (recover : Voucher → String → Option String) (st : EscrowState)
    (v : Voucher) (signature : String) : Except String EscrowState :=
  if v.asset ≠ st.tokenAddr then .error "wrong asset"
  else if v.escrow ≠ st.selfAddr then .error "wrong escrow"
  else if v.chainId ≠ st.chainId then .error "wrong chain"
  else if ¬ v.valueAggregate > 0 then .error "zero value"
  else if ¬ v.nonce > st.settledNonce v.id then .error "stale nonce"
  else if ¬ v.valueAggregate > st.collectedValue v.id then .error "value not increasing"
  else
    match recover v signature with
    | none => .error "invalid signature"
    | some signer =>
      if signer ≠ v.buyer then .error "invalid signature"
      else
        let delta := v.valueAggregate - st.collectedValue v.id
        let acct := st.accounts v.buyer
        if ¬ delta ≤ acct.balance then .error "insufficient escrow balance"
        else
          let newBalance := acct.balance - delta
          let newThawing :=
            if acct.thawingAmount > newBalance then newBalance else acct.thawingAmount
          .ok { st with
            settledNonce := fun i => if i = v.id then v.nonce else st.settledNonce i
            collectedValue := fun i => if i = v.id then v.valueAggregate else st.collectedValue i
            accounts := fun a => if a = v.buyer then
                { acct with balance := newBalance, thawingAmount := newThawing }
              else st.accounts a
            transfers := st.transfers ++ [(v.seller, delta)] }

/-! ## Shared concrete fixtures for witnesses and counterexamples -/

/-- A small concrete configuration (token with 0 decimals, generous absolute
limits). -/
def cfgA : Config :=
  { tokenDecimals := 0, riskMaxPerTransaction := 1000
    riskMaxPendingPerWallet := 1000, riskDailyLimitPerWallet := 1000
    settlementMaxAttempts := 3, fcrEnabled := true }

/-- A concrete payment: 5 tokens from `a` to `b`, valid in `[0, 1000)`. -/
def payA : PaymentPayload :=
  { token := "t", from_ := "a", to_ := "b", value := 5
    validAfter := 0, validBefore := 1000, nonce := "n1", signature := "sigA" }

/-- Matching requirements for `payA`. -/
def reqA : PaymentRequirements :=
  { tokenAddress := "t", payTo := "b", maxAmountRequired := 5 }

/-- A submitted settlement record for `payA` at tipset height 10, currently
recorded at confirmation level L2. -/
def recA : PendingSettlement :=
  { paymentId := "idA", payment := payA, requirements := reqA
    status := .submitted, attempts := 1, maxAttempts := 3
    createdAt := 0, updatedAt := 0, transactionCid := some "cidA"
    tipsetHeight := some 10, confirmationLevel := some .L2 }

/-- A risk state holding exactly the settlement `recA`. -/
def stA : RiskState :=
  { initialRiskState with pendingSettlements := [("idA", recA)] }

/-- A monitor state in instance 5, round 1, PREPARE (a round bump happened). -/
def monitorA : F3InstanceState :=
  { instanceId := 5, round := 1, phase := .PREPARE, phaseStartTime := 0, roundBumps := 1 }

/-- Modelled from the spec: §4.3's claimed effective daily cap
`min(absolute, tier[tier(addr)])`, both converted to token units.  Stated for
comparison with the implementation's third gate. -/
def specEffectiveDailyCap (cfg : Config) (st : RiskState) (wallet : String)
    (nowMs : Nat) : Nat :=
  min (cfg.riskDailyLimitPerWallet * 10 ^ cfg.tokenDecimals)
    (getDailyLimitForWallet cfg st wallet nowMs)

/-- A configuration whose absolute daily limit ($1) is *below* every tier
limit, separating the two daily-cap readings. -/
def cfgTight : Config :=
  { tokenDecimals := 0, riskMaxPerTransaction := 1000
    riskMaxPendingPerWallet := 1000, riskDailyLimitPerWallet := 1
    settlementMaxAttempts := 3, fcrEnabled := false }

/-- A payment whose window ends at 320 — at `now = 200` it has exactly 120
seconds of expiry headroom. -/
def payB : PaymentPayload :=
  { token := "t", from_ := "a", to_ := "b", value := 5
    validAfter := 0, validBefore := 320, nonce := "n2", signature := "sigB" }

/-- A signature-recovery oracle that always recovers the voucher's buyer. -/
def recoverW : Voucher → String → Option String := fun v _ => some v.buyer

/-- A concrete escrow state: buyer `b` holds 400, voucher id `A` settled up to
nonce 1 with 100 collected, one past transfer of 100 to seller `s`. -/
def escrowW : EscrowState :=
  { tokenAddr := "tok", selfAddr := "esc", chainId := 314
    accounts := fun _ => { balance := 400, thawingAmount := 0, thawEndTime := 0 }
    settledNonce := fun _ => 1, collectedValue := fun _ => 100
    transfers := [("s", 100)] }

/-- The follow-up voucher on id `A`: nonce 2, aggregate 250. -/
def voucherW : Voucher :=
  { id := "A", buyer := "b", seller := "s", valueAggregate := 250
    asset := "tok", timestamp := 0, nonce := 2, escrow := "esc", chainId := 314 }

/-- The escrow state after collecting `voucherW` from `escrowW`. -/
def escrowW2 : EscrowState :=
  { tokenAddr := "tok", selfAddr := "esc", chainId := 314
    accounts := fun a => if a = "b" then { balance := 250, thawingAmount := 0, thawEndTime := 0 }
      else escrowW.accounts a
    settledNonce := fun i => if i = "A" then 2 else escrowW.settledNonce i
    collectedValue := fun i => if i = "A" then 250 else escrowW.collectedValue i
    transfers := [("s", 100), ("s", 150)] }

/-- A risk state in which wallet `a` has already used 6 tokens today. -/
def stDaily : RiskState :=
  { initialRiskState with dailyUsageByWallet := fun k =>
      if k = "a" then some (6, "2026-01-01") else none }

/-! ## Credit-conservation machinery (for the reachable-state invariant)

The spec's P1 invariant relates `pendingByWallet` to the stored settlement
records.  We model the external operation sequence as a list of `RiskOp`s and
sum record values wallet-wise. -/

/-- The value a stored record contributes to wallet `w`'s non-terminal sum. -/
def contribVal (w : String) (e : String × PendingSettlement) : Nat :=
  if nonTerminal e.2.status && (lowerStr e.2.payment.from_ == w) then e.2.payment.value else 0

/-- Sum of `payment.value` over stored records whose payer (lower-cased) is
`w` and whose status is non-terminal. -/
def pendingSum (m : SettlementMap) (w : String) : Nat :=
  (m.map (contribVal w)).sum

/-- One externally triggered risk-state operation. -/
inductive RiskOp where
  | reserve (cfg : Config) (paymentId : String) (p : PaymentPayload)
      (req : PaymentRequirements) (nowMs : Nat)
  | release (paymentId : String) (success : Bool) (nowMs : Nat) (dateKey : String)
  | update (paymentId : String) (u : SettlementPatch) (nowMs : Nat)

/-- Apply one operation to the risk state. -/
def applyOp (st : RiskState) : RiskOp → RiskState
  | .reserve cfg paymentId p req nowMs => reserveCredit cfg st paymentId p req nowMs
  | .release paymentId success nowMs dateKey => releaseCredit st paymentId success nowMs dateKey
  | .update paymentId u nowMs => updatePendingSettlement st paymentId u nowMs

/-- Run a sequence of operations. -/
def runOps (st : RiskState) : List RiskOp → RiskState
  | [] => st
  | op :: rest => runOps (applyOp st op) rest

/-- Well-formed use of one operation, as the settlement engine uses them:
`reserveCredit` only under a fresh payment id, `releaseCredit` only on a
record that is still non-terminal, and patches that neither replace the
payment nor move a record into (or out of) a terminal status. -/
def wfOp (st : RiskState) : RiskOp → Bool
  | .reserve _ paymentId _ _ _ => (mapLookup st.pendingSettlements paymentId).isNone
  | .release paymentId _ _ _ =>
    match mapLookup st.pendingSettlements paymentId with
    | none => true
    | some s => nonTerminal s.status
  | .update paymentId u _ =>
    u.payment.isNone &&
    (match u.status with
     | none => true
     | some stt =>
       nonTerminal stt &&
       (match mapLookup st.pendingSettlements paymentId with
        | none => true
        | some s => nonTerminal s.status))

/-- Well-formed use of a whole operation sequence. -/
def wfRun (st : RiskState) : List RiskOp → Bool
  | [] => true
  | op :: rest => wfOp st op && wfRun (applyOp st op) rest

/-- The credit-conservation invariant: every wallet's pending amount equals
the sum of values of its stored non-terminal settlements. -/
def creditInv (st : RiskState) : Prop :=
  ∀ w, st.pendingByWallet w = pendingSum st.pendingSettlements w

/-- A second authorization by wallet `a` over 5 tokens (distinct signature). -/
def payA2 : PaymentPayload :=
  { token := "t", from_ := "a", to_ := "b", value := 5
    validAfter := 0, validBefore := 1000, nonce := "n3", signature := "sigC" }

/-- Reserve two settlements for wallet `a`, then release the first one twice. -/
def opsX : List RiskOp :=
  [.reserve cfgA "i" payA reqA 0, .reserve cfgA "j" payA2 reqA 0,
   .release "i" true 0 "2026-01-01", .release "i" true 0 "2026-01-01"]

/-- A well-formed sequence: one reservation, one release. -/
def opsW : List RiskOp :=
  [.reserve cfgA "i" payA reqA 0, .release "i" true 0 "2026-01-01"]

/-! ## C10 — unknown payment id is a no-op -/

/-- C10: calling `releaseCredit` or `updatePendingSettlement` with a payment
id for which no settlement record exists returns the state unchanged. -/
theorem release_update_missing_id_noop (st : RiskState) (paymentId : String)
    (success : Bool) (u : SettlementPatch) (nowMs : Nat) (dateKey : String)
    (h : getPendingSettlement st paymentId = none) :
    releaseCredit st paymentId success nowMs dateKey = st ∧
    updatePendingSettlement st paymentId u nowMs = st := by
  unfold getPendingSettlement at h
  unfold releaseCredit updatePendingSettlement
  rw [h]
  exact ⟨rfl, rfl⟩

/-- Witness for C10 at a concrete state with no record under `"idMissing"`. -/
theorem release_update_missing_id_noop_witness :
    releaseCredit stA "idMissing" true 7 "2026-01-01" = stA ∧
    updatePendingSettlement stA "idMissing" { status := some .failed } 7 = stA :=
  release_update_missing_id_noop stA "idMissing" true { status := some .failed } 7
    "2026-01-01" (by decide)

/-! ## C1 — the FCR updater can lower a recorded level

`updateSettlementFCR` applies any evaluated level that merely *differs* from
the recorded one (`status.level !== settlement.confirmationLevel`), although
its own comment says "Only update if the level has advanced": with level L2
recorded and the active instance back in PREPARE at round 1 (after a round
bump), the evaluator yields L1 and the record is lowered from L2 to L1. -/

/-- C1: at a concrete reachable input, the per-tick FCR update rewrites a
recorded L2 down to L1 — the updater is not monotone, contrary to the
strictly-higher guard the specification (and the code's own comment)
describes. -/
theorem updateSettlementFCR_lowers_recorded_level :
    (evaluateConfirmationForTipset (some monitorA) { instanceId := 5, status := .active }
      6000).level = .L1 ∧
    recA.confirmationLevel = some .L2 ∧
    ((getPendingSettlement
        (updateSettlementFCR cfgA true
          (.ok (evaluateConfirmationForTipset (some monitorA)
            { instanceId := 5, status := .active } 6000))
          6000 stA recA) "idA").map (·.confirmationLevel)) = some (some .L1) := by
  decide

/-! ## C8 — per-tipset evaluation levels -/

/-- C8 counterexample: with no monitor state, `evaluateConfirmationForTipset`
returns L0 for the tipset — so "never returns L0" is false as stated. -/
theorem evaluateConfirmationForTipset_L0_without_state :
    (evaluateConfirmationForTipset none { instanceId := 0, status := .pending } 0).level
      = .L0 := by
  decide

/-- C8 (amended): whenever the monitor has a current state, the evaluator
returns L3 with `certificateId = instance` on a finalized mapping; on an
active mapping matching the current instance it returns L3 for phase ≥
DECIDE, L2 for COMMIT, L2 for PREPARE at round 0 with ≥ 5 s in phase, and L1
otherwise; L1 on a pending mapping; and it never returns L0. -/
theorem evaluateConfirmationForTipset_levels (cs : F3InstanceState)
    (m : InstanceMapping) (nowMs : Nat) :
    (m.status = .finalized →
      (evaluateConfirmationForTipset (some cs) m nowMs).level = .L3 ∧
      (evaluateConfirmationForTipset (some cs) m nowMs).certificateId = some m.instanceId ∧
      (evaluateConfirmationForTipset (some cs) m nowMs).instanceId = some m.instanceId) ∧
    (m.status = .active → cs.instanceId = m.instanceId →
      ((cs.phase.toNat ≥ F3Phase.DECIDE.toNat →
        (evaluateConfirmationForTipset (some cs) m nowMs).level = .L3) ∧
       (cs.phase = .COMMIT →
        (evaluateConfirmationForTipset (some cs) m nowMs).level = .L2) ∧
       (cs.phase = .PREPARE → cs.round = 0 → nowMs - cs.phaseStartTime ≥ 5000 →
        (evaluateConfirmationForTipset (some cs) m nowMs).level = .L2) ∧
       (cs.phase = .PREPARE → cs.round = 0 → nowMs - cs.phaseStartTime < 5000 →
        (evaluateConfirmationForTipset (some cs) m nowMs).level = .L1) ∧
       (cs.phase = .PREPARE → cs.round ≠ 0 →
        (evaluateConfirmationForTipset (some cs) m nowMs).level = .L1) ∧
       (cs.phase = .QUALITY ∨ cs.phase = .CONVERGE →
        (evaluateConfirmationForTipset (some cs) m nowMs).level = .L1))) ∧
    (m.status = .pending →
      (evaluateConfirmationForTipset (some cs) m nowMs).level = .L1) ∧
    (evaluateConfirmationForTipset (some cs) m nowMs).level ≠ .L0 := by
  unfold evaluateConfirmationForTipset evaluateActiveInstance
  rcases m with ⟨mi, ms⟩
  rcases cs with ⟨ci, cr, cp, cps, cb⟩
  cases ms <;> cases cp <;>
    simp_all [F3Phase.toNat, SAFE_PREPARE_BUFFER_MS] <;>
    split_ifs <;> simp_all

/-- Witness for C8 (amended) at a finalized mapping and an active COMMIT. -/
theorem evaluateConfirmationForTipset_levels_witness :
    (evaluateConfirmationForTipset (some monitorA)
      { instanceId := 7, status := .finalized } 0).level = .L3 ∧
    (evaluateConfirmationForTipset (some monitorA)
      { instanceId := 7, status := .finalized } 0).level ≠ .L0 :=
  ⟨((evaluateConfirmationForTipset_levels monitorA ⟨7, .finalized⟩ 0).1 rfl).1,
   (evaluateConfirmationForTipset_levels monitorA ⟨7, .finalized⟩ 0).2.2.2⟩

/-! ## C6 — duplicate `settle` is a pure short-circuit -/

/-- Every branch of `settle` answers with `paymentId = keccak256(signature)`,
so repeated calls on the same payment report the same id. -/
theorem settle_fst_paymentId (keccak : String → String) (cfg : Config)
    (o : SettleOracle) (nowMs : Nat) (dateKey : String) (st : RiskState)
    (p : PaymentPayload) (req : PaymentRequirements) :
    (settle keccak cfg o nowMs dateKey st p req).1.paymentId = keccak p.signature := by
  unfold settle
  dsimp only
  repeat' split
  all_goals try rfl
  all_goals
    rename_i resp heq
    split at heq
    · split at heq
      · cases heq; rfl
      · cases heq; rfl
      · split at heq
        · cases heq; rfl
        · cases heq
    · cases heq

/-- C6: if a settlement record already exists under `paymentId(p)`, `settle`
returns `success = false` with `payment_already_submitted`, the deterministic
payment id, and the existing record's transaction handle, and leaves the
state untouched — regardless of every oracle (no verification, credit
reservation, bond commit, or chain submission happens). -/
theorem settle_duplicate_short_circuits (keccak : String → String) (cfg : Config)
    (o : SettleOracle) (nowMs : Nat) (dateKey : String) (st : RiskState)
    (p : PaymentPayload) (req : PaymentRequirements) (existing : PendingSettlement)
    (h : getPendingSettlement st (keccak p.signature) = some existing) :
    settle keccak cfg o nowMs dateKey st p req =
      ({ success := false, paymentId := keccak p.signature
         error := some "payment_already_submitted"
         transactionCid := existing.transactionCid }, st) ∧
    ∀ (o₂ : SettleOracle) (st₂ : RiskState) (nowMs₂ : Nat) (dk₂ : String)
      (req₂ : PaymentRequirements),
      (settle keccak cfg o₂ nowMs₂ dk₂ st₂ p req₂).1.paymentId = keccak p.signature := by
  refine ⟨?_, fun o₂ st₂ nowMs₂ dk₂ req₂ => settle_fst_paymentId keccak cfg o₂ nowMs₂ dk₂ st₂ p req₂⟩
  unfold settle
  dsimp only
  rw [h]

/-- Witness for C6: a second `settle` of `payA` against a state already
holding its record short-circuits with the stored transaction handle. -/
theorem settle_duplicate_short_circuits_witness :
    settle (fun _ => "idA") cfgA
      { sigValid := true, nonceUsed := .ok false, balance := .ok 100, nowSec := 1
        bondPresent := false, bondCapacity := .ok true, bondCommit := .ok ()
        submitResult := .ok "cidNew", blockNumber := .ok 11, f3Present := false
        fcrEval := { level := .L1, timestamp := 0 } } 3 "2026-01-01" stA payA reqA =
      ({ success := false, paymentId := "idA"
         error := some "payment_already_submitted"
         transactionCid := some "cidA" }, stA) :=
  (settle_duplicate_short_circuits (fun _ => "idA") cfgA
    { sigValid := true, nonceUsed := .ok false, balance := .ok 100, nowSec := 1
      bondPresent := false, bondCapacity := .ok true, bondCommit := .ok ()
      submitResult := .ok "cidNew", blockNumber := .ok 11, f3Present := false
      fcrEval := { level := .L1, timestamp := 0 } } 3 "2026-01-01" stA payA reqA
    recA (by decide)).1

/-! ## Map and record-update lemmas -/

theorem mapLookup_mapSet_self (m : SettlementMap) (k : String) (v : PendingSettlement) :
    mapLookup (mapSet m k v) k = some v := by
  induction m with
  | nil => simp [mapSet, mapLookup]
  | cons e rest ih =>
    by_cases hk : e.1 == k
    · simp [mapSet, hk, mapLookup]
    · simp [mapSet, hk, mapLookup, ih]

theorem mapLookup_mapSet_ne (m : SettlementMap) (k k' : String) (v : PendingSettlement)
    (h : k' ≠ k) : mapLookup (mapSet m k v) k' = mapLookup m k' := by
  have h' : ¬(k = k') := fun hh => h hh.symm
  induction m with
  | nil => simp [mapSet, mapLookup, h']
  | cons e rest ih =>
    by_cases hk : e.1 == k
    · have hek : e.1 = k := by simpa using hk
      simp [mapSet, hk, mapLookup, hek, h']
    · simp [mapSet, hk, mapLookup, ih]

/-- After `releaseCredit` on a present record, the record is stored back with
the terminal status determined by `success`. -/
theorem getPendingSettlement_releaseCredit_self (st : RiskState) (paymentId : String)
    (success : Bool) (nowMs : Nat) (dateKey : String) (s : PendingSettlement)
    (h : getPendingSettlement st paymentId = some s) :
    getPendingSettlement (releaseCredit st paymentId success nowMs dateKey) paymentId =
      some { s with status := cond success .confirmed .failed, updatedAt := nowMs } := by
  unfold getPendingSettlement at h ⊢
  unfold releaseCredit
  rw [h]
  cases success <;> simp [mapLookup_mapSet_self]

/-- After `updatePendingSettlement` on a present record, the stored record is
the patched one. -/
theorem getPendingSettlement_update_self (st : RiskState) (paymentId : String)
    (u : SettlementPatch) (nowMs : Nat) (s : PendingSettlement)
    (h : getPendingSettlement st paymentId = some s) :
    getPendingSettlement (updatePendingSettlement st paymentId u nowMs) paymentId =
      some (applyPatch s u nowMs) := by
  unfold getPendingSettlement at h ⊢
  unfold updatePendingSettlement
  rw [h]
  exact mapLookup_mapSet_self ..

/-! ## C7 — the worker's retry branch -/

/-- C7: for a stored settlement in `retry` status, the worker (i) fails the
settlement via `releaseCredit(id, false)` when attempts are exhausted, (ii)
likewise when the authorization has expired, and otherwise resubmits: on
submission success the record becomes `submitted` with the new handle and
`attempts + 1`; on submission failure it stays `retry` with `attempts + 1`. -/
theorem processSettlement_retry_branch (o : WorkerOracle) (nowSec nowMs : Nat)
    (dateKey : String) (st : RiskState) (s : PendingSettlement)
    (hstatus : s.status = .retry)
    (hrec : getPendingSettlement st s.paymentId = some s) :
    (s.attempts ≥ s.maxAttempts →
      processSettlement o nowSec nowMs dateKey st s =
        releaseCredit st s.paymentId false nowMs dateKey ∧
      (getPendingSettlement (processSettlement o nowSec nowMs dateKey st s)
        s.paymentId).map (·.status) = some .failed) ∧
    (s.attempts < s.maxAttempts → nowSec ≥ s.payment.validBefore →
      processSettlement o nowSec nowMs dateKey st s =
        releaseCredit st s.paymentId false nowMs dateKey ∧
      (getPendingSettlement (processSettlement o nowSec nowMs dateKey st s)
        s.paymentId).map (·.status) = some .failed) ∧
    (s.attempts < s.maxAttempts → nowSec < s.payment.validBefore →
      ∀ txCid, o.submitResult = .ok txCid →
        (getPendingSettlement (processSettlement o nowSec nowMs dateKey st s)
          s.paymentId).map (fun r => (r.status, r.transactionCid, r.attempts)) =
          some (.submitted, some txCid, s.attempts + 1)) ∧
    (s.attempts < s.maxAttempts → nowSec < s.payment.validBefore →
      ∀ e, o.submitResult = .error e →
        (getPendingSettlement (processSettlement o nowSec nowMs dateKey st s)
          s.paymentId).map (fun r => (r.status, r.attempts)) =
          some (.retry, s.attempts + 1)) := by
  have hne : ¬(s.status = .submitted ∧ s.transactionCid ≠ none) := by
    rw [hstatus]; simp
  refine ⟨fun h1 => ?_, fun h1 h2 => ?_, fun h1 h2 txCid hsub => ?_, fun h1 h2 e hsub => ?_⟩
  · have heq : processSettlement o nowSec nowMs dateKey st s =
        releaseCredit st s.paymentId false nowMs dateKey := by
      unfold processSettlement
      rw [if_neg hne, if_pos hstatus, if_pos h1]
    refine ⟨heq, ?_⟩
    rw [heq, getPendingSettlement_releaseCredit_self st s.paymentId false nowMs dateKey s hrec]
    simp
  · have heq : processSettlement o nowSec nowMs dateKey st s =
        releaseCredit st s.paymentId false nowMs dateKey := by
      unfold processSettlement
      rw [if_neg hne, if_pos hstatus, if_neg (by omega), if_pos h2]
    refine ⟨heq, ?_⟩
    rw [heq, getPendingSettlement_releaseCredit_self st s.paymentId false nowMs dateKey s hrec]
    simp
  · have heq : processSettlement o nowSec nowMs dateKey st s =
        updatePendingSettlement st s.paymentId
          { transactionCid := some txCid, status := some .submitted
            attempts := some (s.attempts + 1) } nowMs := by
      unfold processSettlement
      rw [if_neg hne, if_pos hstatus, if_neg (by omega), if_neg (by omega), hsub]
    rw [heq, getPendingSettlement_update_self st s.paymentId _ nowMs s hrec]
    simp [applyPatch]
  · have heq : processSettlement o nowSec nowMs dateKey st s =
        updatePendingSettlement st s.paymentId
          { attempts := some (s.attempts + 1), error := some e } nowMs := by
      unfold processSettlement
      rw [if_neg hne, if_pos hstatus, if_neg (by omega), if_neg (by omega), hsub]
    rw [heq, getPendingSettlement_update_self st s.paymentId _ nowMs s hrec]
    simp [applyPatch, hstatus]

/-- Witness for C7: a concrete exhausted retry is failed by the worker. -/
theorem processSettlement_retry_branch_witness :
    processSettlement
        { receipt := .ok none, bondPresent := false, bondRelease := .ok ()
          submitResult := .error "rpc down" } 1 2 "2026-01-01"
        { initialRiskState with pendingSettlements :=
            [("idR", { recA with paymentId := "idR", status := .retry, attempts := 3 })] }
        { recA with paymentId := "idR", status := .retry, attempts := 3 } =
      releaseCredit
        { initialRiskState with pendingSettlements :=
            [("idR", { recA with paymentId := "idR", status := .retry, attempts := 3 })] }
        "idR" false 2 "2026-01-01" :=
  ((processSettlement_retry_branch
    { receipt := .ok none, bondPresent := false, bondRelease := .ok ()
      submitResult := .error "rpc down" } 1 2 "2026-01-01"
    { initialRiskState with pendingSettlements :=
        [("idR", { recA with paymentId := "idR", status := .retry, attempts := 3 })] }
    { recA with paymentId := "idR", status := .retry, attempts := 3 }
    rfl (by decide)).1 (by decide)).1

/-! ## C2 — the daily gate uses the tier limit only -/

/-- C2 counterexample: a payment that exceeds the spec's claimed cap
`min(absolute, tierLimit)` is nevertheless allowed — the implementation's
third gate never consults the configured absolute daily limit. -/
theorem checkPayment_ignores_absolute_daily_cap :
    (checkPayment cfgTight initialRiskState payA 0 "2026-01-01").1.allowed = true ∧
    getDailyUsage initialRiskState "a" "2026-01-01" + payA.value >
      specEffectiveDailyCap cfgTight initialRiskState "a" 0 := by
  decide

/-- C2 (amended): with gates 1–2 passing, the third gate rejects with score 60
exactly when `dailyUsed + amount` exceeds the wallet's *tier-based* daily
limit in token units; the configured absolute `dailyLimitPerWallet` plays no
part in the comparison. -/
theorem checkPayment_daily_gate_tier_only (cfg : Config) (st : RiskState)
    (p : PaymentPayload) (nowMs : Nat) (dateKey : String)
    (h1 : ¬ p.value > (computeLimits cfg).maxPerTransaction)
    (h2 : ¬ getPendingAmount (trackWalletFirstSeen st (lowerStr p.from_) nowMs)
            (lowerStr p.from_) + p.value > (computeLimits cfg).maxPendingPerWallet) :
    ((checkPayment cfg st p nowMs dateKey).1.allowed = false ∧
     (checkPayment cfg st p nowMs dateKey).1.riskScore = 60) ↔
    getDailyUsage (trackWalletFirstSeen st (lowerStr p.from_) nowMs)
        (lowerStr p.from_) dateKey + p.value >
      getDailyLimitForWallet cfg (trackWalletFirstSeen st (lowerStr p.from_) nowMs)
        (lowerStr p.from_) nowMs := by
  unfold checkPayment
  dsimp only
  rw [if_neg h1, if_neg h2]
  by_cases h3 : getDailyUsage (trackWalletFirstSeen st (lowerStr p.from_) nowMs)
      (lowerStr p.from_) dateKey + p.value >
    getDailyLimitForWallet cfg (trackWalletFirstSeen st (lowerStr p.from_) nowMs)
      (lowerStr p.from_) nowMs
  · rw [if_pos h3]
    simpa using h3
  · rw [if_neg h3]
    simpa using h3

/-- Witness for C2 (amended): wallet `a` (tier UNKNOWN, $5/day) with 6 used
today is rejected with score 60 for a further 5-token payment. -/
theorem checkPayment_daily_gate_tier_only_witness :
    (checkPayment cfgA stDaily payA 0 "2026-01-01").1.allowed = false ∧
    (checkPayment cfgA stDaily payA 0 "2026-01-01").1.riskScore = 60 :=
  (checkPayment_daily_gate_tier_only cfgA stDaily payA 0 "2026-01-01"
    (by decide) (by decide)).mpr (by decide)

/-! ## Verification pipeline lemmas -/

/-- `checkPayment` can only report one of its three gate reasons (or none). -/
theorem checkPayment_reason_cases (cfg : Config) (st : RiskState) (p : PaymentPayload)
    (nowMs : Nat) (dateKey : String) :
    (checkPayment cfg st p nowMs dateKey).1.reason = none ∨
    (checkPayment cfg st p nowMs dateKey).1.reason = some "Amount exceeds max per transaction" ∨
    (checkPayment cfg st p nowMs dateKey).1.reason = some "Pending would exceed max pending" ∨
    (checkPayment cfg st p nowMs dateKey).1.reason = some "Daily usage would exceed tier limit" := by
  unfold checkPayment
  dsimp only
  split_ifs <;> simp

/-- A risk rejection always carries a reason. -/
theorem checkPayment_reason_of_not_allowed (cfg : Config) (st : RiskState)
    (p : PaymentPayload) (nowMs : Nat) (dateKey : String)
    (h : (checkPayment cfg st p nowMs dateKey).1.allowed = false) :
    (checkPayment cfg st p nowMs dateKey).1.reason ≠ none := by
  revert h
  unfold checkPayment
  dsimp only
  split_ifs <;> simp

set_option maxHeartbeats 2000000 in
/-- `verify` returns exactly the reason of the first failing gate in the
spec's order. -/
theorem verify_reason_eq (cfg : Config) (st : RiskState) (sigValid : Bool)
    (nonceUsed : Except Unit Bool) (balance : Except Unit Nat)
    (now nowMs : Nat) (dateKey : String)
    (p : PaymentPayload) (req : PaymentRequirements) :
    (verify cfg st sigValid nonceUsed balance now nowMs dateKey p req).1.reason =
      firstFailingGateReason cfg st sigValid nonceUsed balance now nowMs dateKey p req := by
  unfold verify firstFailingGateReason
  dsimp only
  cases nonceUsed with
  | error e => cases balance <;> dsimp only <;> split_ifs <;> rfl
  | ok b =>
    cases b
    · cases balance <;> dsimp only <;> split_ifs <;> rfl
    · split_ifs <;> rfl

set_option maxHeartbeats 2000000 in
/-- `verify` declares a payment valid exactly when no gate fails. -/
theorem verify_valid_iff (cfg : Config) (st : RiskState) (sigValid : Bool)
    (nonceUsed : Except Unit Bool) (balance : Except Unit Nat)
    (now nowMs : Nat) (dateKey : String)
    (p : PaymentPayload) (req : PaymentRequirements) :
    (verify cfg st sigValid nonceUsed balance now nowMs dateKey p req).1.valid = true ↔
      firstFailingGateReason cfg st sigValid nonceUsed balance now nowMs dateKey p req
        = none := by
  unfold verify firstFailingGateReason
  dsimp only
  cases nonceUsed with
  | error e =>
    cases balance with
    | error a => dsimp only; split_ifs <;> simp
    | ok bal =>
      dsimp only
      split_ifs <;> simp
      all_goals exact checkPayment_reason_of_not_allowed cfg st p nowMs dateKey (by assumption)
  | ok b =>
    cases b with
    | false =>
      cases balance with
      | error a => dsimp only; split_ifs <;> simp
      | ok bal =>
        dsimp only
        split_ifs <;> simp
        all_goals exact checkPayment_reason_of_not_allowed cfg st p nowMs dateKey (by assumption)
    | true => split_ifs <;> simp

/-- The risk gate's reason is never the expiry gate's reason. -/
theorem checkPayment_reason_ne_expires (cfg : Config) (st : RiskState)
    (p : PaymentPayload) (nowMs : Nat) (dateKey : String) :
    (checkPayment cfg st p nowMs dateKey).1.reason ≠ some "expires_too_soon" := by
  unfold checkPayment
  dsimp only
  split_ifs <;> simp

/-- Gate reasons later than the expiry gate are never `expires_too_soon`. -/
theorem verify_reason_ne_expires_of_headroom (cfg : Config) (st : RiskState)
    (sigValid : Bool) (nonceUsed : Except Unit Bool) (balance : Except Unit Nat)
    (now nowMs : Nat) (dateKey : String)
    (p : PaymentPayload) (req : PaymentRequirements)
    (h6 : isExpiringSoon p 120 now = false) :
    (verify cfg st sigValid nonceUsed balance now nowMs dateKey p req).1.reason
      ≠ some "expires_too_soon" := by
  intro hcontra
  rw [verify_reason_eq] at hcontra
  unfold firstFailingGateReason at hcontra
  rw [h6] at hcontra
  rcases nonceUsed with e | b <;> try cases b
  all_goals try rcases balance with e2 | bal
  all_goals try dsimp only at hcontra
  all_goals try split_ifs at hcontra
  all_goals simp_all [checkPayment_reason_ne_expires]

/-! ## C3 — exactly 120 s of headroom passes the expiry gate -/

/-- C3 counterexample: a payment with exactly 120 seconds of remaining
validity is *accepted* by `verify` (the cutoff `validBefore - now < 120` is
strict, so equality passes), contradicting the claim that it is rejected as
`expires_too_soon`. -/
theorem verify_accepts_exact_120s_headroom :
    payB.validBefore - 200 = 120 ∧
    (verify cfgA initialRiskState true (.ok false) (.ok 100) 200 0 "2026-01-01"
      payB reqA).1.valid = true ∧
    (verify cfgA initialRiskState true (.ok false) (.ok 100) 200 0 "2026-01-01"
      payB reqA).1.reason ≠ some "expires_too_soon" := by
  decide

/-- C3 (amended): when the first five gates pass, `verify` rejects with
`expires_too_soon` exactly when `validBefore - now < 120`; exactly 120
seconds of headroom is accepted. -/
theorem verify_expires_too_soon_iff (cfg : Config) (st : RiskState)
    (sigValid : Bool) (nonceUsed : Except Unit Bool) (balance : Except Unit Nat)
    (now nowMs : Nat) (dateKey : String)
    (p : PaymentPayload) (req : PaymentRequirements)
    (h1 : lowerStr p.token = lowerStr req.tokenAddress)
    (h2 : lowerStr p.to_ = lowerStr req.payTo)
    (h3 : ¬ p.value < req.maxAmountRequired)
    (h4 : sigValid = true)
    (h5 : isWithinValidityWindow p now = true) :
    ((verify cfg st sigValid nonceUsed balance now nowMs dateKey p req).1.reason
        = some "expires_too_soon") ↔
      (p.validBefore : Int) - (now : Int) < 120 := by
  by_cases h6 : isExpiringSoon p 120 now = true
  · have hlt : (p.validBefore : Int) - (now : Int) < 120 := by
      simpa [isExpiringSoon] using h6
    refine iff_of_true ?_ hlt
    rw [verify_reason_eq]
    unfold firstFailingGateReason
    rw [if_neg (by simp [h1]), if_neg (by simp [h2]), if_neg h3,
      if_neg (by simp [h4]), if_neg (by simp [h5]), if_pos h6]
  · have h6f : isExpiringSoon p 120 now = false := by
      revert h6
      cases isExpiringSoon p 120 now <;> simp
    refine iff_of_false
      (verify_reason_ne_expires_of_headroom cfg st sigValid nonceUsed balance
        now nowMs dateKey p req h6f) ?_
    simpa [isExpiringSoon] using h6f

/-- Witness for C3 (amended): at 119 seconds of headroom the same inputs are
rejected as `expires_too_soon`. -/
theorem verify_expires_too_soon_iff_witness :
    (verify cfgA initialRiskState true (.ok false) (.ok 100) 201 0 "2026-01-01"
      payB reqA).1.reason = some "expires_too_soon" :=
  (verify_expires_too_soon_iff cfgA initialRiskState true (.ok false) (.ok 100)
    201 0 "2026-01-01" payB reqA (by decide) (by decide) (by decide) rfl
    (by decide)).mpr (by decide)

/-! ## C4 — gate order, short-circuiting, and transport-error policy -/

/-- C4: `verify` evaluates its gates in the spec's order and returns the first
failing gate's reason (validity holds exactly when no gate fails); a nonce
transport error is non-fatal — the whole call behaves as if the nonce were
unused — while a balance transport error (with the earlier gates passing)
fails the verification with `balance_check_failed` and score 90. -/
theorem verify_gate_order (cfg : Config) (st : RiskState) (sigValid : Bool)
    (nonceUsed : Except Unit Bool) (balance : Except Unit Nat)
    (now nowMs : Nat) (dateKey : String)
    (p : PaymentPayload) (req : PaymentRequirements) :
    ((verify cfg st sigValid nonceUsed balance now nowMs dateKey p req).1.reason =
      firstFailingGateReason cfg st sigValid nonceUsed balance now nowMs dateKey p req) ∧
    ((verify cfg st sigValid nonceUsed balance now nowMs dateKey p req).1.valid = true ↔
      firstFailingGateReason cfg st sigValid nonceUsed balance now nowMs dateKey p req
        = none) ∧
    (verify cfg st sigValid (.error ()) balance now nowMs dateKey p req =
      verify cfg st sigValid (.ok false) balance now nowMs dateKey p req) ∧
    (lowerStr p.token = lowerStr req.tokenAddress →
      lowerStr p.to_ = lowerStr req.payTo →
      ¬ p.value < req.maxAmountRequired →
      sigValid = true →
      isWithinValidityWindow p now = true →
      isExpiringSoon p 120 now = false →
      nonceUsed ≠ .ok true →
      (verify cfg st sigValid nonceUsed (.error ()) now nowMs dateKey p req).1 =
        { valid := false, riskScore := 90, reason := some "balance_check_failed" }) := by
  refine ⟨verify_reason_eq cfg st sigValid nonceUsed balance now nowMs dateKey p req,
    verify_valid_iff cfg st sigValid nonceUsed balance now nowMs dateKey p req,
    rfl, fun h1 h2 h3 h4 h5 h6 h7 => ?_⟩
  unfold verify
  rw [if_neg (by simp [h1]), if_neg (by simp [h2]), if_neg h3,
    if_neg (by simp [h4]), if_neg (by simp [h5]), if_neg (by simp [h6])]
  rcases nonceUsed with e | b
  · rfl
  · cases b
    · rfl
    · exact absurd rfl h7

/-- Witness for C4: with every earlier gate passing and a balance transport
error, verification fails with `balance_check_failed`. -/
theorem verify_gate_order_witness :
    (verify cfgA initialRiskState true (.ok false) (.error ()) 10 0 "2026-01-01"
      payA reqA).1 =
      { valid := false, riskScore := 90, reason := some "balance_check_failed" } :=
  (verify_gate_order cfgA initialRiskState true (.ok false) (.error ()) 10 0
    "2026-01-01" payA reqA).2.2.2 (by decide) (by decide) (by decide) rfl
    (by decide) (by decide) (by simp)

/-! ## C9 — escrow `collect`: success conditions and effects -/

set_option maxHeartbeats 2000000 in
/-- C9: a successful `collect` implies the recovered signer is the buyer, the
chain and escrow fields match, the nonce and aggregate are strictly
increasing — and it transfers exactly the delta to the seller, stores the
voucher's nonce and aggregate, debits the buyer by the delta, and clamps the
thawing amount down to the new remaining balance when it exceeds it. -/
theorem collect_success_conditions_and_effects
    (recover : Voucher → String → Option String) (st st2 : EscrowState)
    (v : Voucher) (signature : String)
    (h : collect recover st v signature = .ok st2) :
    recover v signature = some v.buyer ∧
    v.chainId = st.chainId ∧
    v.escrow = st.selfAddr ∧
    v.nonce > st.settledNonce v.id ∧
    v.valueAggregate > st.collectedValue v.id ∧
    st2.transfers = st.transfers ++ [(v.seller, v.valueAggregate - st.collectedValue v.id)] ∧
    st2.settledNonce v.id = v.nonce ∧
    st2.collectedValue v.id = v.valueAggregate ∧
    (st2.accounts v.buyer).balance =
      (st.accounts v.buyer).balance - (v.valueAggregate - st.collectedValue v.id) ∧
    (st2.accounts v.buyer).thawingAmount =
      (if (st.accounts v.buyer).thawingAmount >
          (st.accounts v.buyer).balance - (v.valueAggregate - st.collectedValue v.id)
       then (st.accounts v.buyer).balance - (v.valueAggregate - st.collectedValue v.id)
       else (st.accounts v.buyer).thawingAmount) := by
  unfold collect at h
  split_ifs at h with ha he hc hz hn hv
  rcases hr : recover v signature with _ | signer <;> (rw [hr] at h; dsimp only at h)
  · cases h
  · split_ifs at h with hs hb hthaw <;> try cases h
    all_goals
      have hs2 : signer = v.buyer := not_not.mp hs
      refine ⟨by rw [← hs2], not_not.mp hc, not_not.mp he, hn, hv, rfl,
        by simp, by simp, by simp, by simp [hthaw]⟩

/-- Witness for C9: the spec's voucher-delta scenario — after 100 collected,
a nonce-2 voucher aggregating 250 pays the seller exactly the 150 delta. -/
theorem collect_success_conditions_and_effects_witness :
    collect recoverW escrowW voucherW "sig" = .ok escrowW2 ∧
    escrowW2.transfers = escrowW.transfers ++
      [(voucherW.seller, voucherW.valueAggregate - escrowW.collectedValue voucherW.id)] := by
  have h : collect recoverW escrowW voucherW "sig" = .ok escrowW2 := rfl
  have c := collect_success_conditions_and_effects recoverW escrowW escrowW2
    voucherW "sig" h
  exact ⟨h, c.2.2.2.2.2.1⟩

/-! ## C5 — credit conservation -/

theorem mapSet_of_lookup_none (m : SettlementMap) (k : String) (v : PendingSettlement)
    (h : mapLookup m k = none) : mapSet m k v = m ++ [(k, v)] := by
  induction m with
  | nil => rfl
  | cons e rest ih =>
    unfold mapLookup at h
    by_cases hk : e.1 == k
    · rw [if_pos hk] at h
      cases h
    · rw [if_neg hk] at h
      unfold mapSet
      rw [if_neg hk, ih h]
      rfl

theorem mapLookup_some_mem (m : SettlementMap) (k : String) (v : PendingSettlement)
    (h : mapLookup m k = some v) : (k, v) ∈ m := by
  induction m with
  | nil => cases h
  | cons e rest ih =>
    unfold mapLookup at h
    by_cases hk : e.1 == k
    · rw [if_pos hk] at h
      injection h with h2
      have hek : e.1 = k := by simpa using hk
      have hkv : (k, v) = e := by
        rcases e with ⟨e1, e2⟩
        simp_all
      rw [hkv]
      exact List.mem_cons_self _ _
    · rw [if_neg hk] at h
      exact List.mem_cons_of_mem _ (ih h)

theorem pendingSum_append (m : SettlementMap) (e : String × PendingSettlement)
    (w : String) : pendingSum (m ++ [e]) w = pendingSum m w + contribVal w e := by
  unfold pendingSum
  rw [List.map_append, List.sum_append]
  simp

theorem pendingSum_mapSet_some (m : SettlementMap) (k : String)
    (s v : PendingSettlement) (w : String) (h : mapLookup m k = some s) :
    pendingSum (mapSet m k v) w + contribVal w (k, s)
      = pendingSum m w + contribVal w (k, v) := by
  induction m with
  | nil => cases h
  | cons e rest ih =>
    unfold mapLookup at h
    by_cases hk : e.1 == k
    · rw [if_pos hk] at h
      injection h with h2
      unfold mapSet
      rw [if_pos hk]
      unfold pendingSum
      simp only [List.map_cons, List.sum_cons]
      have hce : contribVal w e = contribVal w (k, s) := by
        rcases e with ⟨e1, e2⟩
        cases h2
        rfl
      rw [hce]
      omega
    · rw [if_neg hk] at h
      unfold mapSet
      rw [if_neg hk]
      unfold pendingSum at ih ⊢
      simp only [List.map_cons, List.sum_cons]
      have hih := ih h
      omega

theorem contribVal_le_pendingSum (m : SettlementMap) (e : String × PendingSettlement)
    (w : String) (h : e ∈ m) : contribVal w e ≤ pendingSum m w := by
  unfold pendingSum
  exact List.single_le_sum (fun x _ => Nat.zero_le x) _ (List.mem_map_of_mem _ h)

/-- The two state components `reserveCredit` writes. -/
theorem reserveCredit_state_eq (cfg : Config) (st : RiskState) (paymentId : String)
    (p : PaymentPayload) (req : PaymentRequirements) (nowMs : Nat) :
    (reserveCredit cfg st paymentId p req nowMs).pendingByWallet =
      (fun k => if k = lowerStr p.from_
        then getPendingAmount st (lowerStr p.from_) + p.value
        else st.pendingByWallet k) ∧
    (reserveCredit cfg st paymentId p req nowMs).pendingSettlements =
      mapSet st.pendingSettlements paymentId
        { paymentId := paymentId, payment := p, requirements := req
          status := .pending, attempts := 0, maxAttempts := cfg.settlementMaxAttempts
          createdAt := nowMs, updatedAt := nowMs } :=
  ⟨rfl, rfl⟩

/-- The two state components `releaseCredit` writes when the record exists. -/
theorem releaseCredit_state_eq (st : RiskState) (paymentId : String)
    (success : Bool) (nowMs : Nat) (dateKey : String) (s : PendingSettlement)
    (h : mapLookup st.pendingSettlements paymentId = some s) :
    (releaseCredit st paymentId success nowMs dateKey).pendingByWallet =
      (fun k => if k = lowerStr s.payment.from_
        then (if getPendingAmount st (lowerStr s.payment.from_) > s.payment.value
              then getPendingAmount st (lowerStr s.payment.from_) - s.payment.value
              else 0)
        else st.pendingByWallet k) ∧
    (releaseCredit st paymentId success nowMs dateKey).pendingSettlements =
      mapSet st.pendingSettlements paymentId
        { s with status := cond success .confirmed .failed, updatedAt := nowMs } := by
  unfold releaseCredit
  rw [h]
  cases success <;> exact ⟨rfl, rfl⟩

/-- `updatePendingSettlement` only rewrites the settlement map. -/
theorem updatePendingSettlement_state_eq (st : RiskState) (paymentId : String)
    (u : SettlementPatch) (nowMs : Nat) (s : PendingSettlement)
    (h : mapLookup st.pendingSettlements paymentId = some s) :
    (updatePendingSettlement st paymentId u nowMs).pendingByWallet = st.pendingByWallet ∧
    (updatePendingSettlement st paymentId u nowMs).pendingSettlements =
      mapSet st.pendingSettlements paymentId (applyPatch s u nowMs) := by
  unfold updatePendingSettlement
  rw [h]
  exact ⟨rfl, rfl⟩

/-- One well-formed operation preserves credit conservation. -/
theorem creditInv_applyOp (st : RiskState) (op : RiskOp)
    (hc : creditInv st) (hwf : wfOp st op = true) : creditInv (applyOp st op) := by
  cases op with
  | reserve cfg paymentId p req nowMs =>
    intro w
    have hfresh : mapLookup st.pendingSettlements paymentId = none := by
      unfold wfOp at hwf
      exact Option.isNone_iff_eq_none.mp hwf
    obtain ⟨hp, hm⟩ := reserveCredit_state_eq cfg st paymentId p req nowMs
    show (reserveCredit cfg st paymentId p req nowMs).pendingByWallet w
      = pendingSum (reserveCredit cfg st paymentId p req nowMs).pendingSettlements w
    rw [hp, hm, mapSet_of_lookup_none _ _ _ hfresh, pendingSum_append]
    dsimp only
    by_cases hw : w = lowerStr p.from_
    · subst hw
      rw [if_pos rfl]
      unfold getPendingAmount
      rw [lowerStr_idem, hc (lowerStr p.from_)]
      unfold contribVal
      simp [nonTerminal]
    · rw [if_neg hw, hc w]
      unfold contribVal
      have hbeq : (lowerStr p.from_ == w) = false := by
        simp only [beq_eq_false_iff_ne, ne_eq]
        exact fun hh => hw hh.symm
      simp [hbeq]
  | release paymentId success nowMs dateKey =>
    intro w
    show (releaseCredit st paymentId success nowMs dateKey).pendingByWallet w
      = pendingSum (releaseCredit st paymentId success nowMs dateKey).pendingSettlements w
    cases hlk : mapLookup st.pendingSettlements paymentId with
    | none =>
      have hnoop : releaseCredit st paymentId success nowMs dateKey = st := by
        unfold releaseCredit
        rw [hlk]
      rw [hnoop]
      exact hc w
    | some s =>
      have hs : nonTerminal s.status = true := by
        unfold wfOp at hwf
        dsimp only at hwf
        rw [hlk] at hwf
        exact hwf
      obtain ⟨hp, hm⟩ := releaseCredit_state_eq st paymentId success nowMs dateKey s hlk
      rw [hp, hm]
      dsimp only
      have hterm : contribVal w (paymentId,
          { s with status := cond success .confirmed .failed, updatedAt := nowMs }) = 0 := by
        unfold contribVal nonTerminal
        cases success <;> simp
      have hsum := pendingSum_mapSet_some st.pendingSettlements paymentId s
        { s with status := cond success .confirmed .failed, updatedAt := nowMs } w hlk
      rw [hterm] at hsum
      have hle : contribVal w (paymentId, s) ≤ pendingSum st.pendingSettlements w :=
        contribVal_le_pendingSum _ _ _ (mapLookup_some_mem _ _ _ hlk)
      by_cases hw : w = lowerStr s.payment.from_
      · subst hw
        rw [if_pos rfl]
        have hcontrib : contribVal (lowerStr s.payment.from_) (paymentId, s)
            = s.payment.value := by
          unfold contribVal
          simp [hs]
        have hcur : getPendingAmount st (lowerStr s.payment.from_)
            = pendingSum st.pendingSettlements (lowerStr s.payment.from_) := by
          unfold getPendingAmount
          rw [lowerStr_idem]
          exact hc (lowerStr s.payment.from_)
        rw [hcur]
        rw [hcontrib] at hsum hle
        by_cases hgt : pendingSum st.pendingSettlements (lowerStr s.payment.from_)
            > s.payment.value
        · rw [if_pos hgt]
          omega
        · rw [if_neg hgt]
          omega
      · rw [if_neg hw, hc w]
        have hcontrib0 : contribVal w (paymentId, s) = 0 := by
          unfold contribVal
          have hbeq : (lowerStr s.payment.from_ == w) = false := by
            simp only [beq_eq_false_iff_ne, ne_eq]
            exact fun hh => hw hh.symm
          simp [hbeq]
        rw [hcontrib0] at hsum hle
        omega
  | update paymentId u nowMs =>
    intro w
    show (updatePendingSettlement st paymentId u nowMs).pendingByWallet w
      = pendingSum (updatePendingSettlement st paymentId u nowMs).pendingSettlements w
    cases hlk : mapLookup st.pendingSettlements paymentId with
    | none =>
      have hnoop : updatePendingSettlement st paymentId u nowMs = st := by
        unfold updatePendingSettlement
        rw [hlk]
      rw [hnoop]
      exact hc w
    | some s =>
      unfold wfOp at hwf
      dsimp only at hwf
      rw [Bool.and_eq_true] at hwf
      obtain ⟨hpay, hstat⟩ := hwf
      have hpay' : u.payment = none := Option.isNone_iff_eq_none.mp hpay
      obtain ⟨hp, hm⟩ := updatePendingSettlement_state_eq st paymentId u nowMs s hlk
      rw [hp, hm]
      have hpatch : contribVal w (paymentId, applyPatch s u nowMs)
          = contribVal w (paymentId, s) := by
        unfold contribVal applyPatch
        dsimp only
        rw [hpay']
        cases hu : u.status with
        | none => rfl
        | some stt =>
          rw [hu] at hstat
          rw [hlk] at hstat
          rw [Bool.and_eq_true] at hstat
          obtain ⟨h1, h2⟩ := hstat
          dsimp only at h2
          simp [Option.getD, h1, h2]
      have hsum := pendingSum_mapSet_some st.pendingSettlements paymentId s
        (applyPatch s u nowMs) w hlk
      rw [hpatch] at hsum
      rw [hc w]
      omega

/-- A well-formed operation sequence preserves credit conservation. -/
theorem creditInv_runOps (ops : List RiskOp) :
    ∀ st : RiskState, creditInv st → wfRun st ops = true → creditInv (runOps st ops) := by
  induction ops with
  | nil =>
    intro st hc _
    exact hc
  | cons op rest ih =>
    intro st hc hwf
    unfold wfRun at hwf
    rw [Bool.and_eq_true] at hwf
    exact ih _ (creditInv_applyOp st op hc hwf.1) hwf.2

/-- C5 counterexample: the claim fails for arbitrary sequences — reserving
two settlements for wallet `a` and then releasing the first one *twice*
drives `pending[a]` to 0 while a non-terminal settlement worth 5 remains. -/
theorem credit_conservation_fails_on_double_release :
    getPendingAmount (runOps initialRiskState opsX) "a" = 0 ∧
    pendingSum (runOps initialRiskState opsX).pendingSettlements (lowerStr "a") = 5 := by
  decide

/-- C5 (amended): for every sequence of the three operations in which each
`reserveCredit` uses a fresh payment id, each `releaseCredit` targets a
record that is still non-terminal, and each patch neither replaces the
payment nor moves a record into or out of a terminal status, every wallet's
pending amount equals the sum of `payment.value` over its stored
non-terminal settlements. -/
theorem credit_conservation_of_wellformed_ops (ops : List RiskOp)
    (hwf : wfRun initialRiskState ops = true) :
    ∀ w, getPendingAmount (runOps initialRiskState ops) w =
      pendingSum (runOps initialRiskState ops).pendingSettlements (lowerStr w) := by
  have hinit : creditInv initialRiskState := by
    intro w
    rfl
  have hinv := creditInv_runOps ops initialRiskState hinit hwf
  intro w
  unfold getPendingAmount
  exact hinv (lowerStr w)

/-- Witness for C5 (amended) on a concrete reserve/release sequence. -/
theorem credit_conservation_of_wellformed_ops_witness :
    getPendingAmount (runOps initialRiskState opsW) "a" =
      pendingSum (runOps initialRiskState opsW).pendingSettlements (lowerStr "a") :=
  credit_conservation_of_wellformed_ops opsW (by decide) "a"

end FILx402
